import Mathlib

/-!
Verification of the command-interpretation and session-context pipeline of the
godot_ai_assistant repository.

The Python sources are shallowly embedded: strings are Lean `String`s
(character lists, matching Python's code-point slicing and length), fallible
operations return `Except`, and the mutable `last_read_file` slot is threaded
explicitly as state.  Definitions mirror, function by function, the code in
`src/commands/parser.py`, `src/commands/project_commands.py`,
`src/project_analyzer.py`, `src/di_container.py` and `src/web_app.py`.
-/

/-! ## Python string primitives, character-list based -/

/-- Whitespace predicate used by Python's `str.strip` and `str.split` (ASCII). -/
def isWs (c : Char) : Bool := c.isWhitespace

/-- Characters of a string with surrounding whitespace removed (Python `str.strip`). -/
def trimChars (l : List Char) : List Char :=
  ((l.dropWhile isWs).reverse.dropWhile isWs).reverse

/-- Python `s.strip()`. -/
def pyStrip (s : String) : String := String.mk (trimChars s.data)

/-- Python `s[:n]` : the first `n` characters. -/
def pyTakeN (s : String) (n : Nat) : String := String.mk (s.data.take n)

/-- Python `s[n:]` : everything after the first `n` characters. -/
def pyDropN (s : String) (n : Nat) : String := String.mk (s.data.drop n)

/-- Python `s.lower()` (ASCII case folding). -/
def pyLower (s : String) : String := String.mk (s.data.map Char.toLower)

/-- Boolean list-prefix test (helper for `str.startswith` and substring search). -/
def isPrefOf : List Char → List Char → Bool
  | [], _ => true
  | _ :: _, [] => false
  | a :: as, b :: bs => if a = b then isPrefOf as bs else false

/-- Python `s.startswith(pre)`. -/
def pyStartsWith (s pre : String) : Bool := isPrefOf pre.data s.data

/-- Boolean substring test on character lists (Python's `needle in hay`). -/
def containsSub : List Char → List Char → Bool
  | [], needle => isPrefOf needle []
  | h :: t, needle => isPrefOf needle (h :: t) || containsSub t needle

/-- Python `s.split(maxsplit=1)` with default (whitespace) separator:
leading whitespace is discarded, the first whitespace-delimited token is the
first element, and everything after the separating whitespace run (kept
verbatim, trailing whitespace included) is the second element when non-empty. -/
def pySplit1 (s : String) : List String :=
  let cs := s.data.dropWhile isWs
  if cs = [] then []
  else
    let tok := cs.takeWhile (fun ch => !(isWs ch))
    let after := (cs.dropWhile (fun ch => !(isWs ch))).dropWhile isWs
    if after = [] then [String.mk tok] else [String.mk tok, String.mk after]

/-- First whitespace-delimited token of a string (Python `text.split()[0]`). -/
def firstToken (s : String) : String :=
  String.mk ((s.data.dropWhile isWs).takeWhile (fun ch => !(isWs ch)))

/-- The text after the first whitespace-delimited word of `s` (the separating
whitespace included); used to state properties about a directive's remainder. -/
def afterWord (s : String) : String :=
  String.mk (s.data.dropWhile (fun ch => !(isWs ch)))

/-! ## Data model -/

/-- The session's single-slot record of the last file read
(`assistant.last_read_file`, a dict with keys `path` and `content`). -/
structure LoadedFile where
  path : String
  content : String
deriving DecidableEq

/-- The typed exceptions of `src/commands/base.py` plus Python's `ValueError`
(raised by `ListFilesCommand.execute`); the spec calls these `FileNotFound`,
`InvalidDirective` and `NoMatches` respectively. -/
inductive PyError where
  | fileNotFoundErr (msg : String)
  | invalidCommandErr (msg : String)
  | valueErr (msg : String)
deriving DecidableEq

/-- The closed set of directives produced by `CommandParser.parse`
(`src/commands/project_commands.py` command classes). -/
inductive Command where
  | projectInfoCmd
  | projectStructureCmd
  | listFilesCmd (pattern : String)
  | readFileCmd (filePath : String)
  | clearContextCmd
  | loreStatusCmd
  | helpCmd
deriving DecidableEq

/-- `constants.MAX_FILE_CONTENT_DISPLAY`. -/
def MAX_FILE_CONTENT_DISPLAY : Nat := 3000

/-- `constants.MAX_FILES_IN_LIST`. -/
def MAX_FILES_IN_LIST : Nat := 50

/-- `constants.SEPARATOR_LINE`, the literal `'='*80`. -/
def separatorLine : String := String.mk (List.replicate 80 '=')

/-! ## Directive parser (`src/commands/parser.py`) -/

/-- Error message of `CommandParser._parse_read_command`. -/
def READ_USAGE : String := "/read requires a file path. Usage: /read <file>"

/-- `CommandParser._parse_project_command`: case-insensitive substring dispatch
on "info" then "structure", falling back to the help command. -/
def CommandParser.parseProjectCommand (text : String) : Command :=
  let textLower := pyLower text
  if containsSub textLower.data "info".data = true then Command.projectInfoCmd
  else if containsSub textLower.data "structure".data = true then Command.projectStructureCmd
  else Command.helpCmd

/-- `CommandParser._parse_read_command`: two-token split; missing or
whitespace-only remainder is an `InvalidCommandError`, otherwise the trimmed
remainder is the file path. -/
def CommandParser.parseReadCommand (text : String) : Except PyError Command :=
  match pySplit1 text with
  | _ :: second :: _ =>
    if pyStrip second = "" then Except.error (PyError.invalidCommandErr READ_USAGE)
    else Except.ok (Command.readFileCmd (pyStrip second))
  | _ => Except.error (PyError.invalidCommandErr READ_USAGE)

/-- `CommandParser._parse_list_command`: two-token split; missing or
whitespace-only remainder defaults to the `"*.gd"` pattern. -/
def CommandParser.parseListCommand (text : String) : Command :=
  match pySplit1 text with
  | _ :: second :: _ =>
    if pyStrip second = "" then Command.listFilesCmd "*.gd"
    else Command.listFilesCmd (pyStrip second)
  | _ => Command.listFilesCmd "*.gd"

/-- `CommandParser.parse`: strip, dispatch on the `/` marker and the fixed
prefix list; unknown `/`-prefixed input raises `InvalidCommandError` naming the
first token. `Except.ok none` models the Python `None` ("regular query"). -/
def CommandParser.parse (inputText : String) : Except PyError (Option Command) :=
  let text := pyStrip inputText
  if pyStartsWith text "/" = false then Except.ok none
  else if pyStartsWith text "/project" = true then
    Except.ok (some (CommandParser.parseProjectCommand text))
  else if pyStartsWith text "/read" = true then
    (CommandParser.parseReadCommand text).map (fun c => some c)
  else if pyStartsWith text "/list" = true then
    Except.ok (some (CommandParser.parseListCommand text))
  else if pyStartsWith text "/lore" = true then Except.ok (some Command.loreStatusCmd)
  else if pyStartsWith text "/clear" = true then Except.ok (some Command.clearContextCmd)
  else Except.error (PyError.invalidCommandErr ("Unknown command: " ++ firstToken text))

/-! ## Operation set (`src/commands/project_commands.py`)

The project analyzer's `read_file`/`find_files` results are passed in as
arguments (the inspector is an external collaborator); the assistant's
`last_read_file` slot is threaded as explicit state of type
`Option (Option LoadedFile)` — the outer `Option` is whether
`context.assistant` is present, the inner one the slot itself. -/

/-- The truncation notice appended to an over-long file display
(`"... (showing first 3000 chars of {len(content)} total)"`). -/
def contentTruncNotice (total : Nat) : String :=
  "\n\n... (showing first 3000 chars of " ++ toString total ++ " total)"

/-- The fixed display wrapper of `ReadFileCommand.execute`. -/
def readRender (filePath displayContent : String) : String :=
  "<pre>📄 Contents of " ++ filePath ++ ":\n" ++ separatorLine ++ "\n" ++
  displayContent ++ "\n" ++ separatorLine ++
  "\n\n✓ File loaded into context! You can now ask questions about this file.\nUse /clear to remove file context.</pre>"

/-- `ReadFileCommand.execute`: a `None` read raises `FileNotFoundError`
leaving the assistant state untouched; on success the full content is stored
into `last_read_file` (when an assistant is present) and the display copy is
capped at `MAX_FILE_CONTENT_DISPLAY` characters with a notice. -/
def ReadFileCommand.execute (filePath : String) (readResult : Option String)
    (assistant : Option (Option LoadedFile)) :
    Except PyError String × Option (Option LoadedFile) :=
  match readResult with
  | none =>
      (Except.error (PyError.fileNotFoundErr ("File not found: " ++ filePath)), assistant)
  | some content =>
      let assistant2 : Option (Option LoadedFile) :=
        match assistant with
        | none => none
        | some _ => some (some { path := filePath, content := content })
      let displayContent :=
        if content.data.length > MAX_FILE_CONTENT_DISPLAY then
          pyTakeN content MAX_FILE_CONTENT_DISPLAY ++ contentTruncNotice content.data.length
        else
          pyTakeN content MAX_FILE_CONTENT_DISPLAY
      (Except.ok (readRender filePath displayContent), assistant2)

/-- The truncation notice of `ListFilesCommand.execute`, empty unless more
than 50 files matched (`"... and {len(files) - 50} more"`). -/
def listTruncNotice (files : List String) : String :=
  if files.length > 50 then
    "\n\n... and " ++ toString (files.length - 50) ++ " more"
  else ""

/-- The fixed display wrapper of `ListFilesCommand.execute`. -/
def listRender (pattern fileList : String) : String :=
  "<pre>📁 Files matching '" ++ pattern ++ "':\n" ++ separatorLine ++ "\n" ++
  fileList ++ "\n" ++ separatorLine ++ "</pre>"

/-- `"\n".join(..)` over a list of lines. -/
def joinLines : List String → String
  | [] => ""
  | [s] => s
  | s :: t => s ++ "\n" ++ joinLines t

/-- `ListFilesCommand.execute`: empty match raises `ValueError`; otherwise at
most `MAX_FILES_IN_LIST` entries are rendered, with a remainder notice when
more than 50 matched. -/
def ListFilesCommand.execute (pattern : String) (files : List String) :
    Except PyError String :=
  if files = [] then
    Except.error (PyError.valueErr ("No files found matching: " ++ pattern))
  else
    Except.ok (listRender pattern
      (joinLines ((files.take MAX_FILES_IN_LIST).map (fun p => "  " ++ p)) ++
        listTruncNotice files))

/-- `ClearContextCommand.execute`: clears the slot and names the cleared path
when a file is loaded, otherwise reports that there is nothing to clear. -/
def ClearContextCommand.execute (assistant : Option (Option LoadedFile)) :
    String × Option (Option LoadedFile) :=
  match assistant with
  | some (some f) => ("✓ Cleared file context for: " ++ f.path, some none)
  | some none => ("No file context to clear.", some none)
  | none => ("No file context to clear.", none)

/-! ## Project analyzer (`src/project_analyzer.py`) -/

/-- `ProjectAnalyzer.find_files`: empty when the project root does not exist,
empty when the glob raises, otherwise the first 50 relative paths.  The raw
glob outcome is passed in as an `Except` (the filesystem is external). -/
def ProjectAnalyzer.find_files (projectExists : Bool)
    (raw : Except String (List String)) : List String :=
  if projectExists = false then []
  else
    match raw with
    | Except.error _ => []
    | Except.ok paths => paths.take 50

/-! ## Dependency container (`src/di_container.py`) -/

/-- First-match association-list lookup, modelling Python dict membership with
most-recent registration at the head. -/
def findEntry (name : String) : List (String × β) → Option β
  | [] => none
  | (k, v) :: t => if k = name then some v else findEntry name t

/-- `DIContainer`: a singleton map and a factory map, both string-keyed. -/
structure DIContainer (α : Type) where
  singletons : List (String × α)
  factories : List (String × (Unit → α))

/-- `DIContainer.register_singleton`. -/
def DIContainer.registerSingleton (c : DIContainer α) (name : String) (inst : α) :
    DIContainer α :=
  { c with singletons := (name, inst) :: c.singletons }

/-- `DIContainer.register_factory`. -/
def DIContainer.registerFactory (c : DIContainer α) (name : String)
    (factory : Unit → α) : DIContainer α :=
  { c with factories := (name, factory) :: c.factories }

/-- `DIContainer.get`: singletons first, then a fresh factory invocation, else
`KeyError` naming the missing dependency. -/
def DIContainer.get (c : DIContainer α) (name : String) : Except String α :=
  match findEntry name c.singletons with
  | some v => Except.ok v
  | none =>
    match findEntry name c.factories with
    | some factory => Except.ok (factory ())
    | none =>
      Except.error ("Dependency '" ++ name ++ "' not registered in container")

/-- `DIContainer.has`. -/
def DIContainer.hasDep (c : DIContainer α) (name : String) : Bool :=
  (findEntry name c.singletons).isSome || (findEntry name c.factories).isSome

/-! ## Web application (`src/web_app.py`) -/

/-- The JSON payload shape of the `/api/ask` handlers (`type` is `respType`). -/
structure ApiResponse where
  answer : String
  question : String
  respType : String
deriving DecidableEq

/-- `web_app.handle_read_file`: the module-global `last_read_file` slot is
threaded as state.  Note that a failed read SETS THE SLOT TO `None` before
returning the error response. -/
def handle_read_file (command : String) (readResult : Option String)
    (lastReadFile : Option LoadedFile) : ApiResponse × Option LoadedFile :=
  let filePath := pyStrip (pyDropN command 6)
  match readResult with
  | none =>
      ({ answer := "❌ File not found: " ++ filePath ++
           "\nTip: Use /list to see available files",
         question := command, respType := "error" }, none)
  | some content =>
      let lastReadFile2 : Option LoadedFile := some { path := filePath, content := content }
      let displayContent :=
        if content.data.length > 3000 then
          pyTakeN content 3000 ++ contentTruncNotice content.data.length
        else
          pyTakeN content 3000
      ({ answer := "<pre>📄 Contents of " ++ filePath ++ ":\n" ++ separatorLine ++
           "\n" ++ displayContent ++ "\n" ++ separatorLine ++
           "\n\nFile loaded! You can now ask questions about this file.</pre>",
         question := command, respType := "file_content" }, lastReadFile2)

/-- The query-augmentation step inlined in `web_app.ask_question`: with no
loaded file the question passes through unchanged; with a loaded file the
fixed template composes the path, the content capped at 4000 characters, and
the question.  Being a plain function, the result is deterministic in the
`(question, session)` pair. -/
def enhance (question : String) (lastReadFile : Option LoadedFile) : String :=
  match lastReadFile with
  | none => question
  | some f =>
      "I previously read the file: " ++ f.path ++
      "\n\nHere is the content of that file:\n```\n" ++ pyTakeN f.content 4000 ++
      "\n```\n\nNow, my question is: " ++ question

/-! ## Helper lemmas -/

theorem strData_append (s t : String) : (s ++ t).data = s.data ++ t.data := by
  cases s; cases t; rfl

theorem isPrefOf_append (n r : List Char) : isPrefOf n (n ++ r) = true := by
  induction n with
  | nil => rfl
  | cons a t ih => simp [isPrefOf, ih]

theorem isPrefOf_refl (l : List Char) : isPrefOf l l = true := by
  simpa using isPrefOf_append l []

theorem containsSub_of_pref (hay needle : List Char)
    (h : isPrefOf needle hay = true) : containsSub hay needle = true := by
  cases hay with
  | nil => simpa [containsSub] using h
  | cons a t => simp [containsSub, h]

theorem containsSub_append_left (x hay needle : List Char)
    (h : containsSub hay needle = true) : containsSub (x ++ hay) needle = true := by
  induction x with
  | nil => simpa using h
  | cons a t ih => simp [containsSub, ih]

theorem containsSub_mid (pre needle post : List Char) :
    containsSub (pre ++ (needle ++ post)) needle = true :=
  containsSub_append_left _ _ _ (containsSub_of_pref _ _ (isPrefOf_append _ _))

theorem isPrefOf_head (a : Char) (r l : List Char)
    (h : isPrefOf (a :: r) l = true) : isPrefOf [a] l = true := by
  cases l with
  | nil => simp [isPrefOf] at h
  | cons b bs =>
    by_cases hab : a = b
    · simp [isPrefOf, hab]
    · simp [isPrefOf, hab] at h

theorem dropWhile_idem (p : Char → Bool) (l : List Char) :
    (l.dropWhile p).dropWhile p = l.dropWhile p := by
  induction l with
  | nil => rfl
  | cons a t ih =>
    cases hp : p a with
    | true => simp [List.dropWhile_cons, hp, ih]
    | false => simp [List.dropWhile_cons, hp]

theorem dropWhile_nil_iff (p : Char → Bool) (l : List Char) :
    l.dropWhile p = [] ↔ ∀ x ∈ l, p x = true := by
  induction l with
  | nil => simp
  | cons a t ih =>
    cases hp : p a with
    | true => simp [List.dropWhile_cons, hp, ih]
    | false => simp [List.dropWhile_cons, hp]

theorem trimChars_nil_iff (l : List Char) :
    trimChars l = [] ↔ l.dropWhile isWs = [] := by
  unfold trimChars
  rw [List.reverse_eq_nil_iff, dropWhile_nil_iff]
  simp only [List.mem_reverse]
  rw [← dropWhile_nil_iff, dropWhile_idem]

theorem trimChars_dropWhile (l : List Char) :
    trimChars (l.dropWhile isWs) = trimChars l := by
  unfold trimChars
  rw [dropWhile_idem]

theorem mk_eq_empty_iff (l : List Char) : String.mk l = "" ↔ l = [] := by
  constructor
  · intro h
    have h2 : (String.mk l).data = ("" : String).data := by rw [h]
    exact h2
  · intro h; rw [h]

theorem strAppend_empty (s : String) : s ++ "" = s := by
  cases s with
  | mk d =>
    show String.mk (d ++ []) = String.mk d
    rw [List.append_nil]

/-! ## Claim theorems -/

/-- Claim C3: query augmentation is the identity on the question when the
session holds no loaded file; with a loaded file it produces the fixed
template composing the file path, the first at-most-4000 characters of the
stored content, and the original question, in that order.  `enhance` is a
plain function, so the result is deterministic in the `(question, session)`
pair. -/
theorem enhance_spec (q : String) (f : LoadedFile) :
    enhance q none = q ∧
    enhance q (some f) =
      "I previously read the file: " ++ f.path ++
      "\n\nHere is the content of that file:\n```\n" ++ pyTakeN f.content 4000 ++
      "\n```\n\nNow, my question is: " ++ q ∧
    (pyTakeN f.content 4000).data.length ≤ 4000 := by
  refine ⟨rfl, rfl, ?_⟩
  show (f.content.data.take 4000).length ≤ 4000
  rw [List.length_take]
  omega

/-- Claim C9: ClearContext never fails and always leaves the slot empty — on a
loaded file it clears the slot and names the cleared path, otherwise it
reports nothing to clear; a second consecutive execution always reports
nothing to clear; and a successful ReadFile on an initially empty session
followed by ClearContext restores the empty pre-read state. -/
theorem clearContext_idempotent_spec (f : LoadedFile) (p c : String) :
    ClearContextCommand.execute (some (some f)) =
      ("✓ Cleared file context for: " ++ f.path, some none) ∧
    ClearContextCommand.execute (some none) = ("No file context to clear.", some none) ∧
    ClearContextCommand.execute none = ("No file context to clear.", none) ∧
    (∀ a, (ClearContextCommand.execute (ClearContextCommand.execute a).2).1 =
      "No file context to clear.") ∧
    (ClearContextCommand.execute
      (ReadFileCommand.execute p (some c) (some none)).2).2 = some none := by
  refine ⟨rfl, rfl, rfl, ?_, rfl⟩
  intro a
  rcases a with _ | a
  · rfl
  · rcases a with _ | f2 <;> rfl

/-- Claim C10: the project inspector's `find_files` caps its own result at 50
paths, returning the empty list when the project root is absent or the glob
raises, so the ListFiles remainder notice is never produced against this
inspector implementation. -/
theorem find_files_cap_spec (ex : Bool) (raw : Except String (List String))
    (e : String) (paths : List String) :
    (ProjectAnalyzer.find_files ex raw).length ≤ 50 ∧
    ProjectAnalyzer.find_files false raw = [] ∧
    ProjectAnalyzer.find_files ex (Except.error e) = [] ∧
    ProjectAnalyzer.find_files true (Except.ok paths) = paths.take 50 ∧
    listTruncNotice (ProjectAnalyzer.find_files ex raw) = "" := by
  have hlen : (ProjectAnalyzer.find_files ex raw).length ≤ 50 := by
    cases ex with
    | false => simp [ProjectAnalyzer.find_files]
    | true =>
      cases raw with
      | error e2 => simp [ProjectAnalyzer.find_files]
      | ok ps =>
        simp only [ProjectAnalyzer.find_files]
        rw [if_neg (by simp), List.length_take]
        omega
  refine ⟨hlen, rfl, ?_, rfl, ?_⟩
  · cases ex <;> rfl
  · have hno : ¬ ((ProjectAnalyzer.find_files ex raw).length > 50) := by omega
    simp only [listTruncNotice]
    rw [if_neg hno]

/-- Claim C6: registry resolution returns the registered singleton when one
exists (taking precedence over a factory under the same name), otherwise
invokes the registered factory and returns its result, and otherwise fails
with a `KeyError` whose message names the requested dependency. -/
theorem container_get_spec {α : Type} (c : DIContainer α) (name : String) :
    (∀ v, findEntry name c.singletons = some v → c.get name = Except.ok v) ∧
    (∀ factory, findEntry name c.singletons = none →
      findEntry name c.factories = some factory →
      c.get name = Except.ok (factory ())) ∧
    (findEntry name c.singletons = none → findEntry name c.factories = none →
      c.get name =
        Except.error ("Dependency '" ++ name ++ "' not registered in container") ∧
      containsSub ("Dependency '" ++ name ++ "' not registered in container").data
        name.data = true) := by
  refine ⟨?_, ?_, ?_⟩
  · intro v hv
    simp [DIContainer.get, hv]
  · intro factory h1 h2
    simp [DIContainer.get, h1, h2]
  · intro h1 h2
    refine ⟨by simp [DIContainer.get, h1, h2], ?_⟩
    have hd : ("Dependency '" ++ name ++ "' not registered in container").data =
        "Dependency '".data ++ (name.data ++ "' not registered in container".data) := by
      rw [strData_append, strData_append, List.append_assoc]
    rw [hd]
    exact containsSub_mid _ _ _

/-- A concrete registry exercising all three branches of `DIContainer.get`:
a pure singleton, a name registered both ways, a pure factory, and a missing
name. -/
def exampleContainer : DIContainer Nat :=
  { singletons := [("config", 1), ("dual", 2)],
    factories := [("dual", fun _ => 9), ("llmf", fun _ => 7)] }

/-- Witness for `container_get_spec` at a concrete registry: singleton hit,
singleton precedence over a factory, fresh factory invocation, and the
`KeyError` naming the unregistered `"llm"`. -/
theorem container_get_spec_witness :
    exampleContainer.get "config" = Except.ok 1 ∧
    exampleContainer.get "dual" = Except.ok 2 ∧
    exampleContainer.get "llmf" = Except.ok 7 ∧
    exampleContainer.get "llm" =
      Except.error "Dependency 'llm' not registered in container" ∧
    containsSub ("Dependency '" ++ "llm" ++ "' not registered in container").data
      "llm".data = true := by
  refine ⟨?_, ?_, ?_, ?_, ?_⟩
  · exact (container_get_spec exampleContainer "config").1 1 rfl
  · exact (container_get_spec exampleContainer "dual").1 2 rfl
  · exact (container_get_spec exampleContainer "llmf").2.1 (fun _ => 7) rfl rfl
  · exact ((container_get_spec exampleContainer "llm").2.2 rfl rfl).1
  · exact ((container_get_spec exampleContainer "llm").2.2 rfl rfl).2

/-- Claim C7: any input whose trimmed text does not start with the directive
marker `/` parses to `None` ("regular query"), regardless of content. -/
theorem parse_non_directive_none (input : String)
    (h : pyStartsWith (pyStrip input) "/" = false) :
    CommandParser.parse input = Except.ok none := by
  simp [CommandParser.parse, h]

/-- Witness for `parse_non_directive_none` at a concrete free-form question. -/
theorem parse_non_directive_none_witness :
    pyStartsWith (pyStrip "What is a Node2D?") "/" = false ∧
    CommandParser.parse "What is a Node2D?" = Except.ok none :=
  ⟨by decide, parse_non_directive_none "What is a Node2D?" (by decide)⟩

/-- Claim C1 (amended): in the command layer, `ReadFileCommand.execute` on an
absent read target fails with `FileNotFoundError` naming the path and leaves
the assistant's `last_read_file` state exactly as it was; the web handler
`handle_read_file`, by contrast, answers with an error response and CLEARS the
module-global slot to `None` on the same failure. -/
theorem readFileMissing_behavior (path : String) (a : Option (Option LoadedFile))
    (cmd : String) (prior : Option LoadedFile) :
    ReadFileCommand.execute path none a =
      (Except.error (PyError.fileNotFoundErr ("File not found: " ++ path)), a) ∧
    containsSub ("File not found: " ++ path).data path.data = true ∧
    (handle_read_file cmd none prior).2 = none ∧
    (handle_read_file cmd none prior).1.respType = "error" := by
  refine ⟨rfl, ?_, rfl, rfl⟩
  rw [strData_append]
  exact containsSub_append_left _ _ _ (containsSub_of_pref _ _ (isPrefOf_refl _))

/-- Counterexample for claim C1 as stated: in `web_app.handle_read_file`, a
read of an absent file against a session holding a previously loaded file
leaves the last-read-file slot `None`, not its prior value — the loaded file
IS cleared. -/
theorem readFileMissing_web_clears_context :
    (handle_read_file "/read missing.gd" none
      (some { path := "a.gd", content := "extends Node" })).2 = none ∧
    (none : Option LoadedFile) ≠ some { path := "a.gd", content := "extends Node" } :=
  ⟨rfl, by simp⟩

/-- Claim C2: a successful ReadFile on a session-carrying context whose
content exceeds 3000 characters renders exactly the first 3000 characters
followed by the notice stating the true total length, while the session slot
stores the full untruncated content under the requested path. -/
theorem readFile_truncation_stores_full (path content : String)
    (s : Option LoadedFile) (h : content.data.length > 3000) :
    ReadFileCommand.execute path (some content) (some s) =
      (Except.ok (readRender path
        (pyTakeN content 3000 ++ contentTruncNotice content.data.length)),
       some (some { path := path, content := content })) ∧
    (pyTakeN content 3000).data.length = 3000 := by
  constructor
  · simp only [ReadFileCommand.execute, MAX_FILE_CONTENT_DISPLAY]
    rw [if_pos h]
  · show (content.data.take 3000).length = 3000
    rw [List.length_take]
    omega

/-- A 3001-character content used to exercise the display truncation. -/
def bigContent : String := String.mk (List.replicate 3001 'a')

/-- Witness for `readFile_truncation_stores_full` at a concrete 3001-character
file read into an initially empty session. -/
theorem readFile_truncation_stores_full_witness :
    bigContent.data.length > 3000 ∧
    ReadFileCommand.execute "big.gd" (some bigContent) (some none) =
      (Except.ok (readRender "big.gd"
        (pyTakeN bigContent 3000 ++ contentTruncNotice bigContent.data.length)),
       some (some { path := "big.gd", content := bigContent })) := by
  have h : bigContent.data.length > 3000 := by
    show (List.replicate 3001 'a').length > 3000
    rw [List.length_replicate]
    omega
  exact ⟨h, (readFile_truncation_stores_full "big.gd" bigContent none h).1⟩

/-- Claim C4: listing more than 50 matches renders exactly the first 50 paths
in order plus a remainder notice counting `total - 50`; 50 or fewer matches
are all rendered with an empty notice; an empty match set raises the
no-matches error naming the pattern. -/
theorem listFiles_truncation_spec (pattern : String) (files : List String) :
    (files.length > 50 →
      ListFilesCommand.execute pattern files =
        Except.ok (listRender pattern
          (joinLines ((files.take 50).map (fun p => "  " ++ p)) ++
            listTruncNotice files)) ∧
      listTruncNotice files =
        "\n\n... and " ++ toString (files.length - 50) ++ " more" ∧
      (files.take 50).length = 50) ∧
    (files ≠ [] → files.length ≤ 50 →
      ListFilesCommand.execute pattern files =
        Except.ok (listRender pattern (joinLines (files.map (fun p => "  " ++ p))))) ∧
    ListFilesCommand.execute pattern [] =
      Except.error (PyError.valueErr ("No files found matching: " ++ pattern)) := by
  refine ⟨?_, ?_, ?_⟩
  · intro h
    have hne : files ≠ [] := by
      intro he
      rw [he] at h
      simp at h
    refine ⟨?_, ?_, ?_⟩
    · simp only [ListFilesCommand.execute, MAX_FILES_IN_LIST]
      rw [if_neg hne]
    · simp only [listTruncNotice]
      rw [if_pos h]
    · rw [List.length_take]
      omega
  · intro hne hle
    have hno : ¬ (files.length > 50) := by omega
    simp only [ListFilesCommand.execute, MAX_FILES_IN_LIST]
    rw [if_neg hne, List.take_of_length_le hle]
    simp only [listTruncNotice]
    rw [if_neg hno, strAppend_empty]
  · rfl

/-- A 51-element match set used to exercise the list truncation notice. -/
def manyFiles : List String := List.replicate 51 "a.gd"

/-- Witness for `listFiles_truncation_spec` exercising the over-50 branch, the
small-result branch and the empty-result error at concrete inputs. -/
theorem listFiles_truncation_spec_witness :
    manyFiles.length > 50 ∧
    ListFilesCommand.execute "*.gd" manyFiles =
      Except.ok (listRender "*.gd"
        (joinLines ((manyFiles.take 50).map (fun p => "  " ++ p)) ++
          listTruncNotice manyFiles)) ∧
    (["file1.gd", "file2.gd"] : List String) ≠ [] ∧
    (["file1.gd", "file2.gd"] : List String).length ≤ 50 ∧
    ListFilesCommand.execute "*.gd" ["file1.gd", "file2.gd"] =
      Except.ok (listRender "*.gd"
        (joinLines (["file1.gd", "file2.gd"].map (fun p => "  " ++ p)))) ∧
    ListFilesCommand.execute "*.xyz" [] =
      Except.error (PyError.valueErr ("No files found matching: " ++ "*.xyz")) := by
  have h51 : manyFiles.length > 50 := by
    show (List.replicate 51 "a.gd").length > 50
    rw [List.length_replicate]
    omega
  exact ⟨h51, ((listFiles_truncation_spec "*.gd" manyFiles).1 h51).1,
    by decide, by decide,
    (listFiles_truncation_spec "*.gd" ["file1.gd", "file2.gd"]).2.1
      (by decide) (by decide),
    (listFiles_truncation_spec "*.xyz" []).2.2⟩

/-- Claim C5: project sub-resolution is a case-insensitive substring dispatch
— "info" wins, else "structure", else the help command — and a `/project`
directive therefore always parses successfully (an unrecognized subcommand
falls back to help instead of raising `InvalidCommandError`). -/
theorem projectSubcommand_fallback_spec (text : String) :
    (containsSub (pyLower text).data "info".data = true →
      CommandParser.parseProjectCommand text = Command.projectInfoCmd) ∧
    (containsSub (pyLower text).data "info".data = false →
      containsSub (pyLower text).data "structure".data = true →
      CommandParser.parseProjectCommand text = Command.projectStructureCmd) ∧
    (containsSub (pyLower text).data "info".data = false →
      containsSub (pyLower text).data "structure".data = false →
      CommandParser.parseProjectCommand text = Command.helpCmd) ∧
    (∀ input, pyStartsWith (pyStrip input) "/project" = true →
      CommandParser.parse input =
        Except.ok (some (CommandParser.parseProjectCommand (pyStrip input)))) := by
  refine ⟨?_, ?_, ?_, ?_⟩
  · intro h
    simp [CommandParser.parseProjectCommand, h]
  · intro h1 h2
    simp [CommandParser.parseProjectCommand, h1, h2]
  · intro h1 h2
    simp [CommandParser.parseProjectCommand, h1, h2]
  · intro input h
    have h2 : isPrefOf ('/' :: "project".data) (pyStrip input).data = true := h
    have hslash : pyStartsWith (pyStrip input) "/" = true :=
      isPrefOf_head '/' "project".data (pyStrip input).data h2
    simp [CommandParser.parse, h, hslash]

/-- Witness for `projectSubcommand_fallback_spec` at the three concrete
subcommand shapes, including full parses. -/
theorem projectSubcommand_fallback_spec_witness :
    containsSub (pyLower "/project info").data "info".data = true ∧
    CommandParser.parseProjectCommand "/project info" = Command.projectInfoCmd ∧
    containsSub (pyLower "/project STRUCTURE").data "info".data = false ∧
    containsSub (pyLower "/project STRUCTURE").data "structure".data = true ∧
    CommandParser.parseProjectCommand "/project STRUCTURE" =
      Command.projectStructureCmd ∧
    containsSub (pyLower "/project bogus").data "info".data = false ∧
    containsSub (pyLower "/project bogus").data "structure".data = false ∧
    CommandParser.parseProjectCommand "/project bogus" = Command.helpCmd ∧
    pyStartsWith (pyStrip "/project bogus") "/project" = true ∧
    CommandParser.parse "/project bogus" =
      Except.ok (some (CommandParser.parseProjectCommand (pyStrip "/project bogus"))) := by
  refine ⟨by decide,
    (projectSubcommand_fallback_spec "/project info").1 (by decide),
    by decide, by decide,
    (projectSubcommand_fallback_spec "/project STRUCTURE").2.1 (by decide) (by decide),
    by decide, by decide,
    (projectSubcommand_fallback_spec "/project bogus").2.2.1 (by decide) (by decide),
    by decide,
    (projectSubcommand_fallback_spec "/project bogus").2.2.2 "/project bogus" (by decide)⟩

/-- Claim C8: a read directive whose text after the directive word contains no
non-whitespace characters (including a bare `/read` and `/read` followed only
by whitespace) fails with the `InvalidCommandError` usage message, while a
non-empty remainder parses to ReadFile carrying the trimmed remainder,
unmodified. -/
theorem parse_read_directive_spec (text : String)
    (h : pyStartsWith text "/read" = true) :
    (pyStrip (afterWord text) = "" →
      CommandParser.parseReadCommand text =
        Except.error (PyError.invalidCommandErr READ_USAGE)) ∧
    (pyStrip (afterWord text) ≠ "" →
      CommandParser.parseReadCommand text =
        Except.ok (Command.readFileCmd (pyStrip (afterWord text)))) := by
  obtain ⟨bs, hbs⟩ : ∃ bs, text.data = '/' :: bs := by
    cases hd : text.data with
    | nil =>
      have h2 : isPrefOf ('/' :: "read".data) text.data = true := h
      rw [hd] at h2
      simp [isPrefOf] at h2
    | cons b bsx =>
      have h2 : isPrefOf ('/' :: "read".data) text.data = true := h
      rw [hd] at h2
      by_cases hb : '/' = b
      · subst hb
        exact ⟨bsx, rfl⟩
      · simp [isPrefOf, hb] at h2
  have hslashWs : isWs '/' = false := by decide
  have hcs : text.data.dropWhile isWs = text.data := by
    rw [hbs, List.dropWhile_cons]
    simp [hslashWs]
  have hne : text.data ≠ [] := by
    rw [hbs]
    exact List.cons_ne_nil _ _
  constructor
  · intro hA
    have hA2 : String.mk (trimChars (text.data.dropWhile (fun ch => !(isWs ch)))) = "" := hA
    have hrest : (text.data.dropWhile (fun ch => !(isWs ch))).dropWhile isWs = [] :=
      (trimChars_nil_iff _).mp ((mk_eq_empty_iff _).mp hA2)
    have hsplitA : pySplit1 text =
        [String.mk (text.data.takeWhile (fun ch => !(isWs ch)))] := by
      simp only [pySplit1]
      rw [hcs, if_neg hne, if_pos hrest]
    simp only [CommandParser.parseReadCommand, hsplitA]
  · intro hB
    have hrest : (text.data.dropWhile (fun ch => !(isWs ch))).dropWhile isWs ≠ [] := by
      intro hr
      exact hB ((mk_eq_empty_iff _).mpr ((trimChars_nil_iff _).mpr hr))
    have hsplitB : pySplit1 text =
        [String.mk (text.data.takeWhile (fun ch => !(isWs ch))),
         String.mk ((text.data.dropWhile (fun ch => !(isWs ch))).dropWhile isWs)] := by
      simp only [pySplit1]
      rw [hcs, if_neg hne, if_neg hrest]
    have hstrip :
        pyStrip (String.mk ((text.data.dropWhile (fun ch => !(isWs ch))).dropWhile isWs)) =
          pyStrip (afterWord text) := by
      show String.mk (trimChars ((text.data.dropWhile (fun ch => !(isWs ch))).dropWhile isWs)) =
        String.mk (trimChars (text.data.dropWhile (fun ch => !(isWs ch))))
      rw [trimChars_dropWhile]
    simp only [CommandParser.parseReadCommand, hsplitB]
    rw [hstrip, if_neg hB]

/-- Witness for `parse_read_directive_spec` at a whitespace-only remainder and
at a concrete file path. -/
theorem parse_read_directive_spec_witness :
    pyStartsWith "/read   " "/read" = true ∧
    pyStrip (afterWord "/read   ") = "" ∧
    CommandParser.parseReadCommand "/read   " =
      Except.error (PyError.invalidCommandErr READ_USAGE) ∧
    pyStartsWith "/read test.gd" "/read" = true ∧
    pyStrip (afterWord "/read test.gd") ≠ "" ∧
    CommandParser.parseReadCommand "/read test.gd" =
      Except.ok (Command.readFileCmd (pyStrip (afterWord "/read test.gd"))) :=
  ⟨by decide, by decide,
    (parse_read_directive_spec "/read   " (by decide)).1 (by decide),
    by decide, by decide,
    (parse_read_directive_spec "/read test.gd" (by decide)).2 (by decide)⟩
